import Mathlib

/-!
Verification of the device-registry / notification-relay gateway.

The Python source (app.py, routes_firebase.py, routes_notify.py) is shallowly
embedded below.  External collaborators (the Firestore document store, the FCM
push client, the text-generation HTTP provider, the process environment and
the logger) are modelled as explicit inputs/outputs of the handler functions:
each handler takes the parsed request fields plus the collaborator's behaviour
for this request, and returns the HTTP response together with the new store
state and a record of every collaborator interaction (store reads/writes,
push-client calls, provider calls, log lines).
-/

namespace Gateway

/-! ## JSON values (response bodies, flat objects and arrays of flat objects) -/

/-- A primitive JSON value as produced by the handlers (strings, nulls, and
numbers standing for serialised timestamps). -/
inductive JVal where
  | null
  | str (s : String)
  | num (n : Nat)
deriving DecidableEq

/-- A flat JSON object: an insertion-ordered field map, as a Python dict. -/
abbrev JObj : Type := List (String × JVal)

/-- A JSON document returned by a handler: a flat object or an array of flat
objects (the shapes this service produces). -/
inductive Json where
  | obj (o : JObj)
  | arr (a : List JObj)
deriving DecidableEq

/-- An HTTP response body: either a JSON document built by `jsonify`, or a raw
string passed through verbatim (the `/llm` success path). -/
inductive Body where
  | json (j : Json)
  | raw (s : String)
deriving DecidableEq

/-- An HTTP response as produced by a Flask handler: status code, body, and
the Content-Type header. -/
structure Resp where
  status : Nat
  body : Body
  contentType : String
deriving DecidableEq

/-- `jsonify(o), status` — Flask JSON response with Content-Type
`application/json`. -/
def jsonResp (o : JObj) (status : Nat) : Resp :=
  ⟨status, Body.json (Json.obj o), "application/json"⟩

/-- The `{"error": msg}` body every error response carries. -/
def errObj (msg : String) : JObj := [("error", JVal.str msg)]

/-! ## Association-list maps (Python dicts, Firestore documents, collections) -/

/-- First-match lookup in an insertion-ordered map. -/
def alistGet {β : Type} : List (String × β) → String → Option β
  | [], _ => none
  | (k1, v) :: rest, k => if k1 = k then some v else alistGet rest k

/-- Python-dict assignment `m[k] = v`: replace the (first) binding of `k` in
place, or append a new binding at the end. -/
def alistSet {β : Type} : List (String × β) → String → β → List (String × β)
  | [], k, v => [(k, v)]
  | (k1, v1) :: rest, k, v =>
    if k1 = k then (k, v) :: rest else (k1, v1) :: alistSet rest k v

/-- Lookup of a flat JSON object field. -/
def jobjGet (o : JObj) (k : String) : Option JVal := alistGet o k

/-! ## The document store ("devices" collection) -/

/-- A stored Firestore field value: the service writes strings, explicit
nulls, and server timestamps (modelled as a numeric instant). -/
inductive FsValue where
  | null
  | str (s : String)
  | timestamp (t : Nat)
deriving DecidableEq

/-- A stored document: an ordered field map. -/
abbrev Doc : Type := List (String × FsValue)

/-- The "devices" collection: documents keyed by device id, in the order the
store yields them when streamed. -/
abbrev Store : Type := List (String × Doc)

/-- Merge `fields` into an existing document: each written field replaces the
stored one, fields not written are untouched (Firestore `set(..., merge=True)`
on an existing document). -/
def mergeDoc (old fields : Doc) : Doc :=
  fields.foldl (fun acc kv => alistSet acc kv.1 kv.2) old

/-- `collection.document(key).set(fields, merge=True)`: create the document
with exactly `fields` if absent, otherwise merge `fields` into it. -/
def storeSetMerge : Store → String → Doc → Store
  | [], key, fields => [(key, fields)]
  | (k, d) :: rest, key, fields =>
    if k = key then (key, mergeDoc d fields) :: rest
    else (k, d) :: storeSetMerge rest key fields

/-! ## Request-field helpers -/

/-- Python truthiness of an optional string request field or environment
variable: `None` (absent or JSON null) and `""` are falsy. -/
def strFalsy : Option String → Bool
  | none => true
  | some s => s.isEmpty

/-- Python `a or b` on optional strings: `a` when it is truthy, else `b`. -/
def pyOr (a b : Option String) : Option String :=
  match a with
  | some s => if s.isEmpty then b else some s
  | none => b

/-- ASCII lower-casing of a character code (HTTP header names are ASCII). -/
def lowerCode (n : Nat) : Nat := if 65 ≤ n ∧ n ≤ 90 then n + 32 else n

/-- The lower-cased character codes of a string, the key under which HTTP
headers are matched. -/
def lowerCodes (s : String) : List Nat := s.data.map (fun c => lowerCode c.toNat)

/-- Case-insensitive HTTP header lookup (`request.headers.get(name)`). -/
def headerGet : List (String × String) → String → Option String
  | [], _ => none
  | (k, v) :: rest, name =>
    if lowerCodes k = lowerCodes name then some v else headerGet rest name

/-! ## Authentication gate (`require_api_key`, app.py) -/

/-- Outcome of the before-request gate: let the request through to the route
handler, or short-circuit with a 401 response. -/
inductive GateDecision where
  | allow
  | deny401
deriving DecidableEq

/-- `require_api_key` from app.py.  Inputs: request method, resolved endpoint
name, request headers, and the `API_KEY` environment variable (`none` when
unset).  Returns the decision plus any warning lines logged. -/
def require_api_key (method endpoint : String) (headers : List (String × String))
    (expected : Option String) : GateDecision × List String :=
  if method = "OPTIONS" then (GateDecision.allow, [])
  else if endpoint = "health" ∨ endpoint = "admin_dashboard" then (GateDecision.allow, [])
  else
    let api_key := headerGet headers "X-API-Key"
    if strFalsy expected then
      (GateDecision.allow, ["API_KEY environment variable not set - authentication disabled"])
    else if api_key = expected then (GateDecision.allow, [])
    else (GateDecision.deny401, [])

/-- The claim's reference definition of the gate: pre-flight method or the
health-check route bypass unconditionally; with no secret configured
(Python-falsy `API_KEY`) the gate fails open; otherwise the header key must
equal the secret exactly. -/
def gateRefClaim (method endpoint : String) (headers : List (String × String))
    (expected : Option String) : GateDecision :=
  if method = "OPTIONS" ∨ endpoint = "health" then GateDecision.allow
  else if strFalsy expected then GateDecision.allow
  else if headerGet headers "X-API-Key" = expected then GateDecision.allow
  else GateDecision.deny401

/-- The reference definition amended as the code forces: the admin dashboard
route is also exempt from the gate (it performs its own key check). -/
def gateRefAmended (method endpoint : String) (headers : List (String × String))
    (expected : Option String) : GateDecision :=
  if method = "OPTIONS" ∨ endpoint = "health" ∨ endpoint = "admin_dashboard" then
    GateDecision.allow
  else if strFalsy expected then GateDecision.allow
  else if headerGet headers "X-API-Key" = expected then GateDecision.allow
  else GateDecision.deny401

/-- The `admin_dashboard` authorisation check (app.py): the effective key is
the `X-API-Key` header, or (when that is absent or empty) the `key` query
parameter; authorised iff a secret is configured (truthy) and the effective
key equals it.  `true` means the dashboard proceeds, `false` means 401. -/
def admin_dashboard_auth (headers : List (String × String))
    (queryKey expected : Option String) : Bool :=
  let api_key := pyOr (headerGet headers "X-API-Key") queryKey
  if strFalsy expected then false
  else if api_key = expected then true
  else false

/-! ## Device registry routes -/

/-- Result of a registry write route: the response, the store afterwards, and
how many store writes were performed. -/
structure RegOut where
  resp : Resp
  store : Store
  storeWrites : Nat
deriving DecidableEq

/-- The `fcm_token` field value stored by registration: the supplied token, or
an explicit null when the request carried none. -/
def tokenField : Option String → FsValue
  | none => FsValue.null
  | some s => FsValue.str s

/-- `register_device` (routes_firebase.py): reject a falsy `device_id` with
400 before touching the store; otherwise merge-upsert
`{fcm_token: token-or-null, status: "online"}` and answer
`{result: "registered", device_id}`. -/
def register_device (device_id fcm_token : Option String) (st : Store) : RegOut :=
  if strFalsy device_id then
    ⟨jsonResp (errObj "missing device_id") 400, st, 0⟩
  else
    let did := device_id.getD ""
    ⟨jsonResp [("result", JVal.str "registered"), ("device_id", JVal.str did)] 200,
     storeSetMerge st did [("fcm_token", tokenField fcm_token), ("status", FsValue.str "online")],
     1⟩

/-- `heartbeat` (routes_notify.py): reject a falsy `device_id` with 400 before
touching the store; otherwise merge-upsert
`{last_seen: <server timestamp>, status: "online"}` and answer
`{result: "ok", device_id}`.  `now` is the store-assigned timestamp. -/
def heartbeat (device_id : Option String) (now : Nat) (st : Store) : RegOut :=
  if strFalsy device_id then
    ⟨jsonResp (errObj "missing device_id") 400, st, 0⟩
  else
    let did := device_id.getD ""
    ⟨jsonResp [("result", JVal.str "ok"), ("device_id", JVal.str did)] 200,
     storeSetMerge st did [("last_seen", FsValue.timestamp now), ("status", FsValue.str "online")],
     1⟩

/-! ## Notification relay (`/notify`) -/

/-- Outcome of the push client for this request: the provider's message id on
success, or the exception message it raised. -/
inductive PushResult where
  | sent (message_id : String)
  | failed (err : String)
deriving DecidableEq

/-- The payload handed to `messaging.send`: the device's token and the
notification title and body. -/
structure PushMsg where
  token : String
  title : String
  body : String
deriving DecidableEq

/-- Python truthiness of `doc.to_dict().get('fcm_token')`: falsy when the
field is absent, stored null, or the empty string. -/
def tokenFalsy : Option FsValue → Bool
  | none => true
  | some FsValue.null => true
  | some (FsValue.str s) => s.isEmpty
  | some (FsValue.timestamp _) => false

/-- The string content of a stored token value (only reached when truthy, so
in practice a non-empty string). -/
def tokenString : FsValue → String
  | FsValue.null => ""
  | FsValue.str s => s
  | FsValue.timestamp t => toString t

/-- Result of `/notify`: response, store afterwards, store reads/writes
performed, the push-client calls made, and log lines emitted. -/
structure NotifyOut where
  resp : Resp
  store : Store
  storeReads : Nat
  storeWrites : Nat
  pushArgs : List PushMsg
  logs : List String
deriving DecidableEq

/-- `notify` (routes_notify.py): falsy `device_id` → 400 with no store
access; unknown document → 404; falsy stored `fcm_token` → 400; otherwise one
push-client call, answering `{result: "sent", message_id}` on success and
`{"error": str(e)}` with 500 on failure (nothing is logged).  The store is
never written. -/
def notify (device_id title body : Option String) (st : Store) (push : PushResult) :
    NotifyOut :=
  if strFalsy device_id then
    ⟨jsonResp (errObj "missing device_id") 400, st, 0, 0, [], []⟩
  else
    let did := device_id.getD ""
    match alistGet st did with
    | none => ⟨jsonResp (errObj "unknown device") 404, st, 1, 0, [], []⟩
    | some doc =>
      let token := alistGet doc "fcm_token"
      if tokenFalsy token then
        ⟨jsonResp (errObj "no fcm_token for device") 400, st, 1, 0, [], []⟩
      else
        let msg : PushMsg :=
          ⟨tokenString ((token).getD FsValue.null), title.getD "AJNA", body.getD ""⟩
        match push with
        | PushResult.sent mid =>
          ⟨jsonResp [("result", JVal.str "sent"), ("message_id", JVal.str mid)] 200,
           st, 1, 0, [msg], []⟩
        | PushResult.failed e =>
          ⟨jsonResp (errObj e) 500, st, 1, 0, [msg], []⟩

/-! ## Device listing (`/devices`) -/

/-- Serialisation of a stored field value into the JSON listing. -/
def fsToJVal : FsValue → JVal
  | FsValue.null => JVal.null
  | FsValue.str s => JVal.str s
  | FsValue.timestamp t => JVal.num t

/-- `doc.to_dict()` serialised for the listing. -/
def docToJObj (d : Doc) : JObj := d.map (fun kv => (kv.1, fsToJVal kv.2))

/-- One listing item: `item = d.to_dict(); item['device_id'] = d.id`. -/
def deviceItem (key : String) (d : Doc) : JObj :=
  alistSet (docToJObj d) "device_id" (JVal.str key)

/-- The array built by `devices` (routes_notify.py) from the streamed
collection. -/
def deviceListing (st : Store) : List JObj :=
  st.map (fun kd => deviceItem kd.1 kd.2)

/-- `devices` (routes_notify.py): stream the collection and return every
document with the store key written into its `device_id` field. -/
def devices (st : Store) : Resp :=
  ⟨200, Body.json (Json.arr (deviceListing st)), "application/json"⟩

/-! ## Chat and LLM relay (app.py) -/

/-- `chat` (app.py): falsy `message` → 400, else echo. -/
def chat (message : Option String) : Resp :=
  if strFalsy message then jsonResp (errObj "message field is required") 400
  else jsonResp [("response", JVal.str ("Echo: " ++ message.getD ""))] 200

/-- One call made to the text-generation provider. -/
structure LlmCall where
  url : String
  timeoutSecs : Nat
  model : String
  prompt : String
deriving DecidableEq

/-- The provider's behaviour for this request: a completed HTTP response
(status, body text, declared content type), or a raised transport fault
(timeout, connection error) carrying the exception message. -/
inductive ProviderCall where
  | ok (status : Nat) (body : String) (contentType : String)
  | exn (msg : String)
deriving DecidableEq

/-- Result of `/llm`: the response, the provider calls made, and log lines. -/
structure LlmOut where
  resp : Resp
  calls : List LlmCall
  logs : List String
deriving DecidableEq

/-- The exception text of `requests.Response.raise_for_status` for a 4xx/5xx
status (modelled; the relay only ever logs it). -/
def httpErrorText (status : Nat) : String :=
  toString status ++ " Error for url: http://127.0.0.1:11434/api/generate"

/-- `llm` (app.py): falsy `message` → 400 with no provider call.  Otherwise
one POST to the provider; `raise_for_status` turns a 4xx/5xx status into a
`RequestException`.  A raised fault → 503 with the generic body, the
underlying message logged.  A non-raising response with non-empty text is
passed through verbatim with its status and a fixed `application/json`
content type; with empty text the relay answers 502. -/
def llm (message : Option String) (provider : ProviderCall) : LlmOut :=
  if strFalsy message then
    ⟨jsonResp (errObj "message field is required") 400, [], []⟩
  else
    let call : LlmCall :=
      ⟨"http://127.0.0.1:11434/api/generate", 30, "llama3.2:3b", message.getD ""⟩
    match provider with
    | ProviderCall.exn e =>
      ⟨jsonResp (errObj "LLM service unavailable") 503, [call],
       ["LLM service error: " ++ e]⟩
    | ProviderCall.ok status body _ct =>
      if 400 ≤ status ∧ status < 600 then
        ⟨jsonResp (errObj "LLM service unavailable") 503, [call],
         ["LLM service error: " ++ httpErrorText status]⟩
      else if body.isEmpty then
        ⟨jsonResp (errObj "Empty response from LLM service") 502, [call], []⟩
      else
        ⟨⟨status, Body.raw body, "application/json"⟩, [call], []⟩

/-! ## Map lemmas -/

theorem alistGet_alistSet_self {β : Type} (l : List (String × β)) (k : String) (v : β) :
    alistGet (alistSet l k v) k = some v := by
  induction l with
  | nil => simp [alistSet, alistGet]
  | cons hd tl ih =>
    obtain ⟨k1, v1⟩ := hd
    by_cases h : k1 = k <;> simp [alistSet, alistGet, h, ih]

theorem alistGet_alistSet_ne {β : Type} (l : List (String × β)) {k k' : String} (v : β)
    (h : k' ≠ k) : alistGet (alistSet l k v) k' = alistGet l k' := by
  induction l with
  | nil => simp [alistSet, alistGet, Ne.symm h]
  | cons hd tl ih =>
    obtain ⟨k1, v1⟩ := hd
    by_cases h1 : k1 = k
    · subst h1
      simp [alistSet, alistGet, Ne.symm h]
    · simp [alistSet, alistGet, h1, ih]

theorem storeSetMerge_get_self (st : Store) (key : String) (fields : Doc) :
    alistGet (storeSetMerge st key fields) key =
      some (match alistGet st key with
            | some old => mergeDoc old fields
            | none => fields) := by
  induction st with
  | nil => simp [storeSetMerge, alistGet]
  | cons hd tl ih =>
    obtain ⟨k1, d1⟩ := hd
    by_cases h : k1 = key
    · subst h
      simp [storeSetMerge, alistGet]
    · simp [storeSetMerge, alistGet, h, ih]

theorem storeSetMerge_get_ne (st : Store) {key k' : String} (fields : Doc)
    (h : k' ≠ key) : alistGet (storeSetMerge st key fields) k' = alistGet st k' := by
  induction st with
  | nil => simp [storeSetMerge, alistGet, Ne.symm h]
  | cons hd tl ih =>
    obtain ⟨k1, d1⟩ := hd
    by_cases h1 : k1 = key
    · subst h1
      simp [storeSetMerge, alistGet, Ne.symm h]
    · simp [storeSetMerge, alistGet, h1, ih]

end Gateway

namespace Gateway

/-! ## Claim theorems -/

/-- C3 counterexample.  The claim's reference gate exempts only pre-flight
requests and the health check, but the code also exempts the admin dashboard
endpoint: for a GET to the dashboard with a secret configured and no key
supplied, the code's gate allows the request through to the handler while the
reference definition denies it with 401, so the two decision functions are
not equal. -/
theorem gate_admin_dashboard_divergence :
    (require_api_key "GET" "admin_dashboard" [] (some "sek")).1 = GateDecision.allow ∧
    gateRefClaim "GET" "admin_dashboard" [] (some "sek") = GateDecision.deny401 ∧
    (require_api_key "GET" "admin_dashboard" [] (some "sek")).1 ≠
      gateRefClaim "GET" "admin_dashboard" [] (some "sek") := by
  refine ⟨by decide, by decide, by decide⟩

/-- C3 (amended).  The gate's allow/deny decision equals the reference
definition once the admin dashboard endpoint is added to the unconditional
bypass alongside OPTIONS and the health check: fail-open when the configured
secret is Python-falsy, otherwise allow exactly when the case-insensitively
looked-up `X-API-Key` header equals the secret, else deny with 401. -/
theorem gate_decision_eq_amended_reference (method endpoint : String)
    (headers : List (String × String)) (expected : Option String) :
    (require_api_key method endpoint headers expected).1 =
      gateRefAmended method endpoint headers expected := by
  unfold require_api_key gateRefAmended
  by_cases h1 : method = "OPTIONS" <;>
    by_cases h2 : endpoint = "health" <;>
      by_cases h3 : endpoint = "admin_dashboard" <;>
        simp [h1, h2, h3] <;> split_ifs <;> rfl

/-- C9.  The admin dashboard's own check is fail-closed: with no secret
configured (unset or empty `API_KEY`) every request is denied regardless of
the supplied key; with a non-empty secret `ek`, a matching `X-API-Key` header
authorises, a matching `key` query parameter authorises when the header is
absent or empty, and any authorised request in fact supplied `ek` as its
effective (header-or-query) key. -/
theorem admin_dashboard_fail_closed (headers : List (String × String))
    (queryKey : Option String) (ek : String) :
    admin_dashboard_auth headers queryKey none = false ∧
    admin_dashboard_auth headers queryKey (some "") = false ∧
    (ek.isEmpty = false →
      ((headerGet headers "X-API-Key" = some ek →
          admin_dashboard_auth headers queryKey (some ek) = true) ∧
       (strFalsy (headerGet headers "X-API-Key") = true → queryKey = some ek →
          admin_dashboard_auth headers queryKey (some ek) = true) ∧
       (admin_dashboard_auth headers queryKey (some ek) = true →
          pyOr (headerGet headers "X-API-Key") queryKey = some ek))) := by
  have hemp : strFalsy (some "") = true := by decide
  refine ⟨by simp [admin_dashboard_auth, strFalsy],
          by simp [admin_dashboard_auth, hemp], ?_⟩
  intro hek
  have hfal : strFalsy (some ek) = false := by simp [strFalsy, hek]
  refine ⟨?_, ?_, ?_⟩
  · intro hh
    simp [admin_dashboard_auth, hfal, pyOr, hh, hek]
  · intro h1 h2
    cases hh : headerGet headers "X-API-Key" with
    | none => simp [admin_dashboard_auth, hfal, pyOr, hh, h2]
    | some s =>
      have hs : s.isEmpty = true := by simpa [strFalsy, hh] using h1
      simp [admin_dashboard_auth, hfal, pyOr, hh, hs, h2]
  · intro hauth
    by_cases hpe : pyOr (headerGet headers "X-API-Key") queryKey = some ek
    · exact hpe
    · exfalso
      revert hauth
      simp [admin_dashboard_auth, hfal, hpe]

/-- C9 witness: with no secret configured even the correct key is denied;
with the secret configured, the query parameter authorises. -/
theorem admin_dashboard_fail_closed_witness :
    admin_dashboard_auth [] (some "sek") none = false ∧
    admin_dashboard_auth [] (some "sek") (some "sek") = true :=
  ⟨(admin_dashboard_fail_closed [] (some "sek") "sek").1,
   ((admin_dashboard_fail_closed [] (some "sek") "sek").2.2 (by decide)).2.1
     (by decide) rfl⟩

/-- C4.  Whenever a required field is Python-falsy (missing, null or empty) —
`device_id` for register/heartbeat/notify, `message` for chat/llm — the
handler answers 400 and no external collaborator is touched: the store is
unchanged, no store reads or writes happen, no push-client call and no
provider call is made. -/
theorem missing_field_returns_400_no_side_effects
    (did msg tok title body : Option String) (st : Store) (now : Nat)
    (push : PushResult) (provider : ProviderCall)
    (hdid : strFalsy did = true) (hmsg : strFalsy msg = true) :
    ((register_device did tok st).resp.status = 400 ∧
      (register_device did tok st).store = st ∧
      (register_device did tok st).storeWrites = 0) ∧
    ((heartbeat did now st).resp.status = 400 ∧
      (heartbeat did now st).store = st ∧
      (heartbeat did now st).storeWrites = 0) ∧
    ((notify did title body st push).resp.status = 400 ∧
      (notify did title body st push).store = st ∧
      (notify did title body st push).storeReads = 0 ∧
      (notify did title body st push).storeWrites = 0 ∧
      (notify did title body st push).pushArgs = []) ∧
    (chat msg).status = 400 ∧
    ((llm msg provider).resp.status = 400 ∧ (llm msg provider).calls = []) := by
  simp [register_device, heartbeat, notify, chat, llm, hdid, hmsg, jsonResp]

/-- C4 witness: a request with `device_id` absent and one with `message`
empty, evaluated concretely. -/
theorem missing_field_returns_400_no_side_effects_witness :
    strFalsy none = true ∧ strFalsy (some "") = true ∧
    (((register_device none none []).resp.status = 400 ∧
      (register_device none none []).store = [] ∧
      (register_device none none []).storeWrites = 0) ∧
    ((heartbeat none 0 []).resp.status = 400 ∧
      (heartbeat none 0 []).store = [] ∧
      (heartbeat none 0 []).storeWrites = 0) ∧
    ((notify none none none [] (PushResult.sent "m")).resp.status = 400 ∧
      (notify none none none [] (PushResult.sent "m")).store = [] ∧
      (notify none none none [] (PushResult.sent "m")).storeReads = 0 ∧
      (notify none none none [] (PushResult.sent "m")).storeWrites = 0 ∧
      (notify none none none [] (PushResult.sent "m")).pushArgs = []) ∧
    (chat (some "")).status = 400 ∧
    ((llm (some "") (ProviderCall.exn "e")).resp.status = 400 ∧
      (llm (some "") (ProviderCall.exn "e")).calls = [])) :=
  ⟨by decide, by decide,
   missing_field_returns_400_no_side_effects none (some "") none none none [] 0
     (PushResult.sent "m") (ProviderCall.exn "e") (by decide) (by decide)⟩

/-- A merge-upsert of two fields: the targeted document afterwards holds
exactly the two written values, every other field reads as before (absent
document included), and every other document is untouched. -/
theorem upsert_two_fields_spec (st : Store) (key a b : String) (va vb : FsValue)
    (hab : a ≠ b) :
    ∃ d : Doc, alistGet (storeSetMerge st key [(a, va), (b, vb)]) key = some d ∧
      alistGet d a = some va ∧ alistGet d b = some vb ∧
      (∀ k, k ≠ a → k ≠ b →
        alistGet d k = (alistGet st key).bind (fun old => alistGet old k)) := by
  cases h : alistGet st key with
  | none =>
    refine ⟨[(a, va), (b, vb)], ?_, ?_, ?_, ?_⟩
    · rw [storeSetMerge_get_self, h]
    · simp [alistGet]
    · simp [alistGet, hab]
    · intro k hka hkb
      simp [alistGet, Ne.symm hka, Ne.symm hkb, h]
  | some old =>
    refine ⟨alistSet (alistSet old a va) b vb, ?_, ?_, ?_, ?_⟩
    · rw [storeSetMerge_get_self, h]
      rfl
    · rw [alistGet_alistSet_ne _ _ hab, alistGet_alistSet_self]
    · rw [alistGet_alistSet_self]
    · intro k hka hkb
      rw [alistGet_alistSet_ne _ _ hkb, alistGet_alistSet_ne _ _ hka]
      simp [h]

/-- C5.  Registry writes are merge-upserts touching only their own fields:
after `register_device` the device's document holds `fcm_token` (the supplied
token or explicit null) and `status = "online"`, and every other field —
`last_seen` in particular — reads exactly as before the write; after
`heartbeat` the document holds `last_seen = <server timestamp>` and
`status = "online"`, and every other field — `fcm_token` in particular —
reads exactly as before.  Documents of other devices are untouched by both. -/
theorem registry_writes_merge_frame (did : String) (hdid : did.isEmpty = false)
    (tok : Option String) (now : Nat) (st : Store) :
    (∃ d : Doc,
      alistGet (register_device (some did) tok st).store did = some d ∧
      alistGet d "fcm_token" = some (tokenField tok) ∧
      alistGet d "status" = some (FsValue.str "online") ∧
      (∀ k, k ≠ "fcm_token" → k ≠ "status" →
        alistGet d k = (alistGet st did).bind (fun old => alistGet old k))) ∧
    (∀ other, other ≠ did →
      alistGet (register_device (some did) tok st).store other = alistGet st other) ∧
    (∃ d : Doc,
      alistGet (heartbeat (some did) now st).store did = some d ∧
      alistGet d "last_seen" = some (FsValue.timestamp now) ∧
      alistGet d "status" = some (FsValue.str "online") ∧
      (∀ k, k ≠ "last_seen" → k ≠ "status" →
        alistGet d k = (alistGet st did).bind (fun old => alistGet old k))) ∧
    (∀ other, other ≠ did →
      alistGet (heartbeat (some did) now st).store other = alistGet st other) := by
  have hreg : (register_device (some did) tok st).store =
      storeSetMerge st did [("fcm_token", tokenField tok), ("status", FsValue.str "online")] := by
    simp [register_device, strFalsy, hdid]
  have hhb : (heartbeat (some did) now st).store =
      storeSetMerge st did [("last_seen", FsValue.timestamp now), ("status", FsValue.str "online")] := by
    simp [heartbeat, strFalsy, hdid]
  refine ⟨?_, ?_, ?_, ?_⟩
  · rw [hreg]
    exact upsert_two_fields_spec st did _ _ _ _ (by decide)
  · intro other hother
    rw [hreg, storeSetMerge_get_ne _ _ hother]
  · rw [hhb]
    exact upsert_two_fields_spec st did _ _ _ _ (by decide)
  · intro other hother
    rw [hhb, storeSetMerge_get_ne _ _ hother]

/-- C5 witness: register, heartbeat, then re-register with a new token on one
concrete device; the re-registration overwrites `fcm_token` and `status` and
the `last_seen` written by the heartbeat persists. -/
theorem registry_writes_merge_frame_witness :
    ("d1".isEmpty = false) ∧
    alistGet (register_device (some "d1") (some "t2")
        (heartbeat (some "d1") 7 (register_device (some "d1") (some "t1") []).store).store).store
      "d1" =
      some [("fcm_token", FsValue.str "t2"), ("status", FsValue.str "online"),
            ("last_seen", FsValue.timestamp 7)] ∧
    alistGet [("fcm_token", FsValue.str "t2"), ("status", FsValue.str "online"),
            ("last_seen", FsValue.timestamp 7)] "last_seen" =
      ((alistGet (heartbeat (some "d1") 7 (register_device (some "d1") (some "t1") []).store).store
          "d1").bind (fun old => alistGet old "last_seen")) := by
  refine ⟨by decide, by decide, ?_⟩
  obtain ⟨d, hd, _, _, hframe⟩ :=
    (registry_writes_merge_frame "d1" (by decide) (some "t2") 0
      (heartbeat (some "d1") 7 (register_device (some "d1") (some "t1") []).store).store).1
  have hdval : d = [("fcm_token", FsValue.str "t2"), ("status", FsValue.str "online"),
      ("last_seen", FsValue.timestamp 7)] := by
    have := hd
    rw [show alistGet (register_device (some "d1") (some "t2")
        (heartbeat (some "d1") 7 (register_device (some "d1") (some "t1") []).store).store).store
        "d1" =
        some [("fcm_token", FsValue.str "t2"), ("status", FsValue.str "online"),
              ("last_seen", FsValue.timestamp 7)] from by decide] at this
    exact (Option.some.injEq _ _ ▸ this).symm
  have := hframe "last_seen" (by decide) (by decide)
  rw [hdval] at this
  exact this

/-- C6.  `/notify` with a non-empty `device_id`: an absent document → 404
"unknown device"; a document whose `fcm_token` is absent, null or empty →
400 "no fcm_token for device"; otherwise the push client is called and a
provider success yields 200 `{result: "sent", message_id}`.  In every case
the device registry is left unchanged and never written. -/
theorem notify_lookup_and_dispatch (did : String) (hdid : did.isEmpty = false)
    (title body : Option String) (st : Store) (push : PushResult) :
    (alistGet st did = none →
      (notify (some did) title body st push).resp =
        jsonResp (errObj "unknown device") 404 ∧
      (notify (some did) title body st push).pushArgs = []) ∧
    (∀ d : Doc, alistGet st did = some d →
      tokenFalsy (alistGet d "fcm_token") = true →
      (notify (some did) title body st push).resp =
        jsonResp (errObj "no fcm_token for device") 400 ∧
      (notify (some did) title body st push).pushArgs = []) ∧
    (∀ d : Doc, alistGet st did = some d →
      tokenFalsy (alistGet d "fcm_token") = false →
      (notify (some did) title body st push).pushArgs.length = 1 ∧
      (∀ mid, push = PushResult.sent mid →
        (notify (some did) title body st push).resp =
          jsonResp [("result", JVal.str "sent"), ("message_id", JVal.str mid)] 200)) ∧
    (notify (some did) title body st push).store = st ∧
    (notify (some did) title body st push).storeWrites = 0 := by
  refine ⟨?_, ?_, ?_, ?_, ?_⟩
  · intro h
    simp [notify, strFalsy, hdid, h]
  · intro d hd htok
    simp [notify, strFalsy, hdid, hd, htok]
  · intro d hd htok
    cases push with
    | sent mid =>
      refine ⟨by simp [notify, strFalsy, hdid, hd, htok], ?_⟩
      intro mid' hmid
      cases hmid
      simp [notify, strFalsy, hdid, hd, htok]
    | failed e =>
      refine ⟨by simp [notify, strFalsy, hdid, hd, htok], ?_⟩
      intro mid' hmid
      cases hmid
  · cases h : alistGet st did with
    | none => simp [notify, strFalsy, hdid, h]
    | some d =>
      by_cases htok : tokenFalsy (alistGet d "fcm_token") = true
      · simp [notify, strFalsy, hdid, h, htok]
      · cases push <;> simp [notify, strFalsy, hdid, h, htok]
  · cases h : alistGet st did with
    | none => simp [notify, strFalsy, hdid, h]
    | some d =>
      by_cases htok : tokenFalsy (alistGet d "fcm_token") = true
      · simp [notify, strFalsy, hdid, h, htok]
      · cases push <;> simp [notify, strFalsy, hdid, h, htok]

/-- C6 witness: an unknown device answers 404, and a registered device with
a token answers 200 with the provider's message id, on a concrete store. -/
theorem notify_lookup_and_dispatch_witness :
    ("dx".isEmpty = false ∧
      (notify (some "dx") none none [("d1", [("fcm_token", FsValue.str "tok")])]
          (PushResult.sent "m1")).resp = jsonResp (errObj "unknown device") 404) ∧
    ((notify (some "d1") none none [("d1", [("fcm_token", FsValue.str "tok")])]
        (PushResult.sent "m1")).resp =
      jsonResp [("result", JVal.str "sent"), ("message_id", JVal.str "m1")] 200 ∧
     (notify (some "d1") none none [("d1", [("fcm_token", FsValue.str "tok")])]
        (PushResult.sent "m1")).store = [("d1", [("fcm_token", FsValue.str "tok")])]) :=
  ⟨⟨by decide,
    ((notify_lookup_and_dispatch "dx" (by decide) none none
        [("d1", [("fcm_token", FsValue.str "tok")])] (PushResult.sent "m1")).1
      (by decide)).1⟩,
   ⟨((notify_lookup_and_dispatch "d1" (by decide) none none
        [("d1", [("fcm_token", FsValue.str "tok")])] (PushResult.sent "m1")).2.2.1
      [("fcm_token", FsValue.str "tok")] (by decide) (by decide)).2 "m1" rfl,
    (notify_lookup_and_dispatch "d1" (by decide) none none
        [("d1", [("fcm_token", FsValue.str "tok")])] (PushResult.sent "m1")).2.2.2.1⟩⟩

/-- C1 counterexample.  The relay does not preserve the provider's declared
content type: for a 2xx provider response declaring `text/plain`, the relay
returns the body and status but declares `application/json`. -/
theorem llm_contentType_not_preserved :
    (llm (some "hi") (ProviderCall.ok 200 "ok" "text/plain")).resp =
      ⟨200, Body.raw "ok", "application/json"⟩ ∧
    (llm (some "hi") (ProviderCall.ok 200 "ok" "text/plain")).resp.contentType ≠
      "text/plain" :=
  ⟨by decide, by decide⟩

/-- C1 (amended).  For a non-empty message and a 2xx provider response with a
non-empty body, the relay returns the body verbatim with the provider's
status code, declaring a fixed `application/json` content type regardless of
the provider's declared content type; exactly one provider call is made. -/
theorem llm_success_passthrough (msg : String) (hmsg : msg.isEmpty = false)
    (status : Nat) (h2 : 200 ≤ status) (h3 : status < 300)
    (body : String) (hb : body.isEmpty = false) (ct : String) :
    (llm (some msg) (ProviderCall.ok status body ct)).resp =
      ⟨status, Body.raw body, "application/json"⟩ ∧
    (llm (some msg) (ProviderCall.ok status body ct)).calls.length = 1 := by
  have hns : ¬ (400 ≤ status ∧ status < 600) := by omega
  simp [llm, strFalsy, hmsg, hns, hb]

/-- C1 witness: a concrete 2xx provider response passed through. -/
theorem llm_success_passthrough_witness :
    ("hi".isEmpty = false ∧ 200 ≤ 200 ∧ 200 < 300 ∧ "generated".isEmpty = false) ∧
    (llm (some "hi") (ProviderCall.ok 200 "generated" "application/json")).resp =
      ⟨200, Body.raw "generated", "application/json"⟩ :=
  ⟨⟨by decide, by decide, by decide, by decide⟩,
   (llm_success_passthrough "hi" (by decide) 200 (by decide) (by decide)
      "generated" (by decide) "application/json").1⟩

/-- C7 counterexample.  A non-2xx status is not always mapped to 503: a 303
provider response does not raise in `raise_for_status` (which only fires on
4xx/5xx), so its non-empty body is passed through with status 303. -/
theorem llm_redirect_not_503 :
    (llm (some "hi") (ProviderCall.ok 303 "cached" "application/json")).resp.status = 303 ∧
    (llm (some "hi") (ProviderCall.ok 303 "cached" "application/json")).resp.status ≠ 503 :=
  ⟨by decide, by decide⟩

/-- C7 (amended).  For a non-empty message: a 2xx provider response with an
empty body → 502; a raised transport fault (timeout, connection refused) →
503; a 4xx/5xx status (which `raise_for_status` turns into a fault) → 503;
and in every case exactly one provider call is attempted, with no retry. -/
theorem llm_upstream_error_mapping (msg : String) (hmsg : msg.isEmpty = false)
    (status : Nat) (body ct : String) (e : String) :
    (200 ≤ status → status < 300 → body.isEmpty = true →
      (llm (some msg) (ProviderCall.ok status body ct)).resp =
        jsonResp (errObj "Empty response from LLM service") 502) ∧
    ((llm (some msg) (ProviderCall.exn e)).resp =
        jsonResp (errObj "LLM service unavailable") 503) ∧
    (400 ≤ status → status < 600 →
      (llm (some msg) (ProviderCall.ok status body ct)).resp =
        jsonResp (errObj "LLM service unavailable") 503) ∧
    (llm (some msg) (ProviderCall.ok status body ct)).calls.length = 1 ∧
    (llm (some msg) (ProviderCall.exn e)).calls.length = 1 := by
  refine ⟨?_, ?_, ?_, ?_, ?_⟩
  · intro h2 h3 hb
    have hns : ¬ (400 ≤ status ∧ status < 600) := by omega
    simp [llm, strFalsy, hmsg, hns, hb]
  · simp [llm, strFalsy, hmsg]
  · intro h4 h6
    simp [llm, strFalsy, hmsg, h4, h6]
  · by_cases hr : 400 ≤ status ∧ status < 600
    · simp [llm, strFalsy, hmsg, hr]
    · by_cases hb : body.isEmpty = true <;> simp [llm, strFalsy, hmsg, hr, hb]
  · simp [llm, strFalsy, hmsg]

/-- C7 witness: empty 2xx body → 502, connection fault → 503, provider 500 →
503, one call each, on concrete inputs. -/
theorem llm_upstream_error_mapping_witness :
    ("hi".isEmpty = false ∧ "".isEmpty = true) ∧
    (llm (some "hi") (ProviderCall.ok 200 "" "application/json")).resp =
      jsonResp (errObj "Empty response from LLM service") 502 ∧
    (llm (some "hi") (ProviderCall.exn "connection refused")).resp =
      jsonResp (errObj "LLM service unavailable") 503 ∧
    (llm (some "hi") (ProviderCall.ok 500 "oops" "text/plain")).resp =
      jsonResp (errObj "LLM service unavailable") 503 ∧
    (llm (some "hi") (ProviderCall.ok 200 "" "application/json")).calls.length = 1 :=
  ⟨⟨by decide, by decide⟩,
   (llm_upstream_error_mapping "hi" (by decide) 200 "" "application/json"
      "connection refused").1 (by decide) (by decide) (by decide),
   (llm_upstream_error_mapping "hi" (by decide) 200 "" "application/json"
      "connection refused").2.1,
   (llm_upstream_error_mapping "hi" (by decide) 500 "oops" "text/plain"
      "connection refused").2.2.1 (by decide) (by decide),
   (llm_upstream_error_mapping "hi" (by decide) 200 "" "application/json"
      "connection refused").2.2.2.1⟩

/-- C2 counterexample.  The notification relay leaks the provider's internal
error to the caller and logs nothing: on a push failure with message
"FCM Error: Invalid token" the 500 response body carries exactly that
message, and the log sink receives no entry. -/
theorem notify_leaks_provider_error :
    (notify (some "d1") none none [("d1", [("fcm_token", FsValue.str "tok")])]
        (PushResult.failed "FCM Error: Invalid token")).resp =
      jsonResp (errObj "FCM Error: Invalid token") 500 ∧
    (notify (some "d1") none none [("d1", [("fcm_token", FsValue.str "tok")])]
        (PushResult.failed "FCM Error: Invalid token")).logs = [] :=
  ⟨by decide, by decide⟩

/-- C2 (amended).  Only the text-generation relay hides provider failures:
a raised provider fault (and a 4xx/5xx status) yields the fixed generic 503
body with the underlying message sent to the logger; the notification
relay instead returns the provider's error message in its 500 response body
and sends nothing to the logger. -/
theorem provider_error_surface (msg e : String) (hmsg : msg.isEmpty = false)
    (status : Nat) (body ct : String)
    (did : String) (hdid : did.isEmpty = false) (title nbody : Option String)
    (st : Store) (d : Doc) (hd : alistGet st did = some d)
    (htok : tokenFalsy (alistGet d "fcm_token") = false) :
    ((llm (some msg) (ProviderCall.exn e)).resp =
        jsonResp (errObj "LLM service unavailable") 503 ∧
      (llm (some msg) (ProviderCall.exn e)).logs = ["LLM service error: " ++ e]) ∧
    (400 ≤ status → status < 600 →
      (llm (some msg) (ProviderCall.ok status body ct)).resp =
        jsonResp (errObj "LLM service unavailable") 503 ∧
      (llm (some msg) (ProviderCall.ok status body ct)).logs =
        ["LLM service error: " ++ httpErrorText status]) ∧
    ((notify (some did) title nbody st (PushResult.failed e)).resp =
        jsonResp (errObj e) 500 ∧
      (notify (some did) title nbody st (PushResult.failed e)).logs = []) := by
  refine ⟨?_, ?_, ?_⟩
  · simp [llm, strFalsy, hmsg]
  · intro h4 h6
    simp [llm, strFalsy, hmsg, h4, h6]
  · simp [notify, strFalsy, hdid, hd, htok]

/-- C2 witness: the llm relay's generic 503 with the fault logged, and the
notify relay's leaked 500, on concrete inputs. -/
theorem provider_error_surface_witness :
    ("hi".isEmpty = false ∧ "d1".isEmpty = false ∧
      alistGet [("d1", [("fcm_token", FsValue.str "tok")])] "d1" =
        some [("fcm_token", FsValue.str "tok")] ∧
      tokenFalsy (alistGet [("fcm_token", FsValue.str "tok")] "fcm_token") = false) ∧
    ((llm (some "hi") (ProviderCall.exn "boom")).resp =
        jsonResp (errObj "LLM service unavailable") 503 ∧
      (llm (some "hi") (ProviderCall.exn "boom")).logs = ["LLM service error: boom"]) ∧
    ((notify (some "d1") none none [("d1", [("fcm_token", FsValue.str "tok")])]
        (PushResult.failed "boom")).resp = jsonResp (errObj "boom") 500 ∧
      (notify (some "d1") none none [("d1", [("fcm_token", FsValue.str "tok")])]
        (PushResult.failed "boom")).logs = []) :=
  ⟨⟨by decide, by decide, by decide, by decide⟩,
   (provider_error_surface "hi" "boom" (by decide) 500 "x" "ct" "d1" (by decide)
      none none [("d1", [("fcm_token", FsValue.str "tok")])]
      [("fcm_token", FsValue.str "tok")] (by decide) (by decide)).1,
   (provider_error_surface "hi" "boom" (by decide) 500 "x" "ct" "d1" (by decide)
      none none [("d1", [("fcm_token", FsValue.str "tok")])]
      [("fcm_token", FsValue.str "tok")] (by decide) (by decide)).2.2⟩

/-- C8.  Registering `d1` without an `fcm_token` field on an empty registry
answers 200 `{result: "registered", device_id: "d1"}` and stores an explicit
null token: the subsequent `/devices` listing contains exactly the record
with `device_id = "d1"`, `status = "online"` and `fcm_token = null`. -/
theorem register_without_token_stores_null_scenario :
    (register_device (some "d1") none []).resp =
      jsonResp [("result", JVal.str "registered"), ("device_id", JVal.str "d1")] 200 ∧
    devices (register_device (some "d1") none []).store =
      ⟨200, Body.json (Json.arr [[("fcm_token", JVal.null), ("status", JVal.str "online"),
        ("device_id", JVal.str "d1")]]), "application/json"⟩ ∧
    (∃ o ∈ deviceListing (register_device (some "d1") none []).store,
      jobjGet o "device_id" = some (JVal.str "d1") ∧
      jobjGet o "status" = some (JVal.str "online") ∧
      jobjGet o "fcm_token" = some JVal.null) :=
  ⟨by decide, by decide,
   ⟨[("fcm_token", JVal.null), ("status", JVal.str "online"), ("device_id", JVal.str "d1")],
    by decide, by decide, by decide, by decide⟩⟩

/-- C10.  Every record the `/devices` listing yields for a stored document is
that document's serialised field map with `device_id` set to the
store-assigned key: the `device_id` field of the listed record equals the
document key (overwriting any stored field of that name), and every other
field reads exactly as in the stored document. -/
theorem listing_device_id_is_store_key (st : Store) (key : String) (d : Doc)
    (h : (key, d) ∈ st) :
    ∃ o ∈ deviceListing st,
      o = deviceItem key d ∧
      jobjGet o "device_id" = some (JVal.str key) ∧
      ∀ k, k ≠ "device_id" → jobjGet o k = alistGet (docToJObj d) k := by
  refine ⟨deviceItem key d, ?_, rfl, ?_, ?_⟩
  · exact List.mem_map.mpr ⟨(key, d), h, rfl⟩
  · exact alistGet_alistSet_self _ _ _
  · intro k hk
    exact alistGet_alistSet_ne _ _ hk

/-- C10 witness: a stored document that itself carries a spoofed `device_id`
field is listed with the store key instead. -/
theorem listing_device_id_is_store_key_witness :
    ((("real", [("device_id", FsValue.str "SPOOF"), ("x", FsValue.null)]) : String × Doc) ∈
      ([("real", [("device_id", FsValue.str "SPOOF"), ("x", FsValue.null)])] : Store)) ∧
    ∃ o ∈ deviceListing [("real", [("device_id", FsValue.str "SPOOF"), ("x", FsValue.null)])],
      o = deviceItem "real" [("device_id", FsValue.str "SPOOF"), ("x", FsValue.null)] ∧
      jobjGet o "device_id" = some (JVal.str "real") := by
  refine ⟨by decide, ?_⟩
  obtain ⟨o, ho, h1, h2, _⟩ :=
    listing_device_id_is_store_key
      [("real", [("device_id", FsValue.str "SPOOF"), ("x", FsValue.null)])]
      "real" [("device_id", FsValue.str "SPOOF"), ("x", FsValue.null)] (by decide)
  exact ⟨o, ho, h1, h2⟩

end Gateway
